import Mathlib

/-!
Verification development for the stoahub-esim provisioning backend.

This file gives a shallow embedding, in Lean, of the provisioning
orchestration and webhook reconciliation core of the repository:

* the vendor webhook route and its per-event handlers
  (`router.post('/webhook')`, `handleProfileActivated`,
  `handleProfileSuspended`, `handleProfileUnsuspended`,
  `handleProfileCancelled`, `handleProfileExpired`, `handleProfileRevoked`,
  `handleUsageThreshold`, `handleBalanceLow` in the esim routes file);
* the provisioning orchestrator (`ProvisioningService.provisionEsim`,
  `ProvisioningService.pollEsimStatus`, `formatEsimNote`) together with
  `WooCommerceService.updateOrderMeta`;
* the order-completed gateway (`handleWooCommerceOrderCompleted`);
* the usage-check endpoint (`router.get('/usage/:iccid')`).

The record store (supabase) is modelled as an in-memory database value, and
timestamps (`new Date()`) are modelled as an explicit `now : Nat` parameter.
Effectful steps additionally emit an ordered trace of effects so that
temporal ordering and call counting can be stated.
-/

/-- JavaScript `x || d` on an optional string: `undefined` and the empty
string are falsy and fall back to the default. -/
def jsOrStr (s : Option String) (d : String) : String :=
  match s with
  | some v => if v = "" then d else v
  | none => d

/-- JavaScript `t || new Date()` on an optional numeric timestamp:
`undefined` and `0` are falsy and fall back to the current time. -/
def jsOrNow (t : Option Nat) (now : Nat) : Nat :=
  match t with
  | some v => if v = 0 then now else v
  | none => now

/-- A value stored in an eSIM row's free-form `metadata` JSON map. -/
inductive MetaVal where
  | null
  | str (s : String)
  /-- The raw vendor usage payload stored by the usage-check endpoint. -/
  | usageData (u : String)
deriving DecidableEq

/-- A parsed vendor webhook payload: the fields destructured by the webhook
handlers (`event`, `profileId`, `iccid`, `activationTime`, `reason`,
`usage`, `threshold`, `remaining`, `balance`). Absent JSON fields are
`none`. -/
structure WebhookData where
  event : String
  profileId : Option String := none
  iccid : Option String := none
  activationTime : Option Nat := none
  reason : Option String := none
  usage : Option Int := none
  threshold : Option Int := none
  remaining : Option Int := none
  balance : Option Int := none
deriving DecidableEq

/-- One row of the `esims` table. -/
structure Esim where
  id : String
  order_id : String
  user_id : String
  product_id : String
  iccid : String
  activation_code : Option String := none
  status : String
  qr_code : Option String := none
  activated_at : Option Nat := none
  deactivated_at : Option Nat := none
  deactivation_reason : Option String := none
  metadata : List (String × MetaVal) := []
  created_at : Nat := 0
  updated_at : Nat := 0
deriving DecidableEq

/-- One row of the append-only `esim_activation_logs` table. Note the code
inserts the payload's `profileId` into the `esim_id` column. -/
structure ActLog where
  esim_id : Option String
  action : String
  meta : WebhookData
  created_at : Nat
deriving DecidableEq

/-- One row of the `system_logs` table (the audit sink of the webhook
route). -/
structure SysLog where
  level : String
  service : String
  message : String
  meta : WebhookData
  created_at : Nat
deriving DecidableEq

/-- One row of the `user_notifications` table. -/
structure UserNotif where
  user_id : String
  typ : String
  created_at : Nat
deriving DecidableEq

/-- One row of the `system_notifications` table. -/
structure SysNotif where
  typ : String
  created_at : Nat
deriving DecidableEq

/-- The record store: the supabase tables touched by the webhook path. -/
structure Db where
  esims : List Esim := []
  activationLogs : List ActLog := []
  systemLogs : List SysLog := []
  userNotifs : List UserNotif := []
  sysNotifs : List SysNotif := []
deriving DecidableEq

/-- Observable effects of one webhook delivery, in temporal order. -/
inductive WEffect where
  /-- A winston `logger.info` / `logger.error` line (process log). -/
  | procLog (msg : String)
  /-- The insert of the raw event into the `system_logs` audit table. -/
  | auditInsert (w : WebhookData)
  /-- An `update ... eq('iccid', iccid)` on the `esims` table. -/
  | esimsUpdate (iccid : Option String) (newStatus : String)
  /-- An insert into `esim_activation_logs`. -/
  | actLogInsert (esimId : Option String) (action : String)
  /-- An insert into `user_notifications`. -/
  | userNotifInsert (userId : String)
  /-- An insert into `system_notifications`. -/
  | sysNotifInsert (typ : String)
  /-- The HTTP acknowledgment sent back to the vendor. -/
  | ackSend (status : Nat) (error : Option String)
deriving DecidableEq

/-- The JSON body of the webhook acknowledgment. -/
structure Ack where
  status : Nat
  received : Bool
  error : Option String
deriving DecidableEq

/-- Handler `handleProfileActivated`: unconditionally sets the matching rows to
`ACTIVE` with `activated_at = activationTime || new Date()`, then appends an
`ACTIVATED` activation-log row (keyed by the payload's `profileId`). -/
def handleProfileActivated (now : Nat) (w : WebhookData) (db : Db) : Db × List WEffect :=
  let db1 := { db with
    esims := db.esims.map fun (r : Esim) =>
      if some r.iccid = w.iccid then
        { r with status := "ACTIVE", activated_at := some (jsOrNow w.activationTime now),
                 updated_at := now }
      else r }
  let db2 := { db1 with
    activationLogs := db1.activationLogs ++
      [{ esim_id := w.profileId, action := "ACTIVATED", meta := w, created_at := now }] }
  (db2, [WEffect.esimsUpdate w.iccid "ACTIVE", WEffect.actLogInsert w.profileId "ACTIVATED"])

/-- JSON serialization of the object with the single field suspension_reason = reason: an
`undefined` reason is dropped by `JSON.stringify`. -/
def reasonMeta (reason : Option String) : List (String × MetaVal) :=
  match reason with
  | some s => [("suspension_reason", MetaVal.str s)]
  | none => []

/-- Handler `handleProfileSuspended`: unconditionally sets matching rows to
`SUSPENDED` and replaces the whole metadata column. -/
def handleProfileSuspended (now : Nat) (w : WebhookData) (db : Db) : Db × List WEffect :=
  ({ db with
      esims := db.esims.map fun (r : Esim) =>
        if some r.iccid = w.iccid then
          { r with status := "SUSPENDED", metadata := reasonMeta w.reason, updated_at := now }
        else r },
   [WEffect.esimsUpdate w.iccid "SUSPENDED"])

/-- Handler `handleProfileUnsuspended`: unconditionally sets matching rows to
`ACTIVE` and replaces the whole metadata column with
a map holding only suspension_reason = null. -/
def handleProfileUnsuspended (now : Nat) (w : WebhookData) (db : Db) : Db × List WEffect :=
  ({ db with
      esims := db.esims.map fun (r : Esim) =>
        if some r.iccid = w.iccid then
          { r with status := "ACTIVE", metadata := [("suspension_reason", MetaVal.null)],
                   updated_at := now }
        else r },
   [WEffect.esimsUpdate w.iccid "ACTIVE"])

/-- Handler `handleProfileCancelled`: unconditionally sets matching rows to
`CANCELLED` with deactivation timestamp and defaulted reason. -/
def handleProfileCancelled (now : Nat) (w : WebhookData) (db : Db) : Db × List WEffect :=
  ({ db with
      esims := db.esims.map fun (r : Esim) =>
        if some r.iccid = w.iccid then
          { r with status := "CANCELLED", deactivated_at := some now,
                   deactivation_reason := some (jsOrStr w.reason "Cancelled by provider"),
                   updated_at := now }
        else r },
   [WEffect.esimsUpdate w.iccid "CANCELLED"])

/-- Handler `handleProfileExpired`: unconditionally sets matching rows to
`EXPIRED`. -/
def handleProfileExpired (now : Nat) (w : WebhookData) (db : Db) : Db × List WEffect :=
  ({ db with
      esims := db.esims.map fun (r : Esim) =>
        if some r.iccid = w.iccid then
          { r with status := "EXPIRED", updated_at := now }
        else r },
   [WEffect.esimsUpdate w.iccid "EXPIRED"])

/-- Handler `handleProfileRevoked`: unconditionally sets matching rows to `REVOKED`
with deactivation timestamp and defaulted reason. -/
def handleProfileRevoked (now : Nat) (w : WebhookData) (db : Db) : Db × List WEffect :=
  ({ db with
      esims := db.esims.map fun (r : Esim) =>
        if some r.iccid = w.iccid then
          { r with status := "REVOKED", deactivated_at := some now,
                   deactivation_reason := some (jsOrStr w.reason "Revoked by provider"),
                   updated_at := now }
        else r },
   [WEffect.esimsUpdate w.iccid "REVOKED"])

/-- Handler `handleUsageThreshold`: resolves the owning user via
`select('user_id').eq('iccid', iccid).single()` (which yields a row only
when exactly one row matches) and, if found, inserts a user
notification. No esims mutation. -/
def handleUsageThreshold (now : Nat) (w : WebhookData) (db : Db) : Db × List WEffect :=
  match db.esims.filter fun (r : Esim) => some r.iccid = w.iccid with
  | [r] =>
    ({ db with userNotifs := db.userNotifs ++
        [{ user_id := r.user_id, typ := "USAGE_THRESHOLD", created_at := now }] },
     [WEffect.userNotifInsert r.user_id])
  | _ => (db, [])

/-- Handler `handleBalanceLow`: inserts an operator-facing system notification. -/
def handleBalanceLow (now : Nat) (_w : WebhookData) (db : Db) : Db × List WEffect :=
  ({ db with sysNotifs := db.sysNotifs ++ [{ typ := "BALANCE_LOW", created_at := now }] },
   [WEffect.sysNotifInsert "BALANCE_LOW"])

/-- The `switch (webhookData.event)` dispatch of the webhook route. Unknown
event types are only logged. -/
def processEvent (now : Nat) (w : WebhookData) (db : Db) : Db × List WEffect :=
  if w.event = "profile.activated" then handleProfileActivated now w db
  else if w.event = "profile.suspended" then handleProfileSuspended now w db
  else if w.event = "profile.unsuspended" then handleProfileUnsuspended now w db
  else if w.event = "profile.cancelled" then handleProfileCancelled now w db
  else if w.event = "profile.expired" then handleProfileExpired now w db
  else if w.event = "profile.revoked" then handleProfileRevoked now w db
  else if w.event = "usage.threshold" then handleUsageThreshold now w db
  else if w.event = "balance.low" then handleBalanceLow now w db
  else (db, [WEffect.procLog ("Unhandled webhook event: " ++ w.event)])

/-- The raw HTTP body of a webhook delivery, after `JSON.parse` has been
attempted: either a parse failure with its error message, or the parsed
payload. -/
inductive RawBody where
  | malformed (err : String)
  | wellFormed (w : WebhookData)
deriving DecidableEq

/-- The webhook route (`router.post('/webhook')`): parse, audit-insert the
raw event into `system_logs`, dispatch on the event type, and always
acknowledge with HTTP 200. A parse failure is caught, logged to the process
logger only, and still acknowledged with 200. -/
def webhookRoute (now : Nat) (body : RawBody) (db : Db) : Db × Ack × List WEffect :=
  match body with
  | RawBody.malformed err =>
    (db, { status := 200, received := true, error := some err },
     [WEffect.procLog ("Webhook processing error: " ++ err),
      WEffect.ackSend 200 (some err)])
  | RawBody.wellFormed w =>
    let db1 := { db with systemLogs := db.systemLogs ++
      [{ level := "info", service := "esim-webhook", message := "Webhook received",
         meta := w, created_at := now }] }
    let res := processEvent now w db1
    (res.1, { status := 200, received := true, error := none },
     WEffect.procLog "Received ESIM webhook" :: WEffect.auditInsert w ::
       res.2 ++ [WEffect.ackSend 200 none])

/-- Profile details returned by `esimService.getEsimByOrderNumber`: iccid,
QR code url, activation link, vendor status. A missing iccid is modelled as
the empty string (both `undefined` and `""` are falsy in the JS guard
`if (result.iccid)`). -/
structure EsimDetails where
  iccid : String
  qrCode : String
  activationLink : String
  status : String
deriving DecidableEq

/-- The vendor eSIM API as seen by the orchestrator: current account
balance, order placement returning an order number, and the per-attempt
outcome of `getEsimByOrderNumber` (either a thrown transport error or a
profile). `pollResult i` is the response to the i-th poll attempt
(1-indexed). -/
structure Vendor where
  balance : Int
  currency : String
  placeOrder : String → String → Nat → String
  pollResult : Nat → Except String EsimDetails

/-- Observable effects of one orchestration run, in temporal order. -/
inductive PEffect where
  /-- The `esimService.getAccountBalance()` call. -/
  | balanceQuery
  /-- The `esimService.orderProfile(...)` vendor order placement. -/
  | placeOrderCall (transactionId sku : String) (quantity : Nat)
  /-- An `await sleep(ms)` delay. -/
  | sleepMs (ms : Nat)
  /-- The `esimService.getEsimByOrderNumber(orderNumber)` poll attempt `i`. -/
  | pollCall (orderNumber : String) (attempt : Nat)
  /-- A `woocommerceService.createOrderNote(orderId, note, customerNote)`. -/
  | orderNote (orderId note : String) (customerNote : Bool)
  /-- A `woocommerceService.updateOrderMeta(orderId, ...)` PUT body. -/
  | metaUpdate (orderId : String) (meta_data : List (String × String))
deriving DecidableEq

/-- Outcome of `ProvisioningService.pollEsimStatus`: the JS function either
returns a profile, re-raises the last vendor error (only when the final
attempt threw), or falls off the loop and returns `undefined`. -/
inductive PollOutcome where
  | found (d : EsimDetails)
  | threw (e : String)
  /-- The loop exhausted all attempts without a non-empty iccid and without
  a throw on the final attempt: the JS function returns `undefined`. -/
  | exhausted
deriving DecidableEq

/-- The loop body of `ProvisioningService.pollEsimStatus(orderNumber,
maxRetries)`: `i` is the current 1-indexed attempt, `fuel` the number of
attempts still allowed including this one (so the JS guard
`i === maxRetries` is `fuel = 0` after peeling one attempt). Each attempt
queries first; on a non-empty iccid it returns, otherwise it sleeps
`3000 * 2 ^ i` ms and continues; a thrown query error is swallowed except
on the final attempt, where it is re-raised. -/
def pollLoop (v : Vendor) (orderNumber : String) : Nat → Nat → PollOutcome × List PEffect
  | _, 0 => (PollOutcome.exhausted, [])
  | i, fuel + 1 =>
    match v.pollResult i with
    | Except.ok d =>
      if d.iccid = "" then
        let r := pollLoop v orderNumber (i + 1) fuel
        (r.1, PEffect.pollCall orderNumber i :: PEffect.sleepMs (3000 * 2 ^ i) :: r.2)
      else (PollOutcome.found d, [PEffect.pollCall orderNumber i])
    | Except.error e =>
      if fuel = 0 then (PollOutcome.threw e, [PEffect.pollCall orderNumber i])
      else
        let r := pollLoop v orderNumber (i + 1) fuel
        (r.1, PEffect.pollCall orderNumber i :: PEffect.sleepMs (3000 * 2 ^ i) :: r.2)

/-- Function `ProvisioningService.pollEsimStatus` with its default
`maxRetries = 10`, starting at attempt 1. -/
def pollEsimStatus (v : Vendor) (orderNumber : String) (maxRetries : Nat) :
    PollOutcome × List PEffect :=
  pollLoop v orderNumber 1 maxRetries

/-- The errors `provisionEsim` can end in: the explicit insufficient-balance
throw, a re-raised vendor poll error, or the TypeError raised by
`formatEsimNote(undefined)` when the poll loop returned no value. -/
inductive PErr where
  | insufficientBalance (b : Int)
  | vendorError (e : String)
  | typeErrorUndefined
deriving DecidableEq

/-- The `error.message` of each modelled error. -/
def errMessage : PErr → String
  | PErr.insufficientBalance b => "Insufficient balance: $" ++ toString b
  | PErr.vendorError e => e
  | PErr.typeErrorUndefined => "Cannot read properties of undefined"

/-- Function `ProvisioningService.formatEsimNote`. -/
def formatEsimNote (esim : EsimDetails) : String :=
  "\n🔰 Your eSIM is ready!\n📱 ICCID: " ++ esim.iccid ++
  "\n🔗 Activation: " ++ esim.activationLink ++
  "\n📸 QR: " ++ esim.qrCode ++ "\n    "

/-- The failure note appended in the catch block of `provisionEsim`. -/
def failNote (e : PErr) : String :=
  "❌ eSIM provisioning failed: " ++ errMessage e

/-- Method `WooCommerceService.updateOrderMeta`: each key is prefixed with
`_esim_` before the PUT to the order ledger. -/
def updateOrderMetaBody (metaData : List (String × String)) : List (String × String) :=
  metaData.map fun (p : String × String) => ("_esim_" ++ p.1, p.2)

/-- Method `ProvisioningService.provisionEsim(orderId, sku, quantity)`:
check balance (fail below 10), place the vendor order, sleep 5000 ms, poll,
then on success append the note and the provisioning metadata to the order
ledger; on any failure append a failure note and re-raise. The returned
trace lists the effects in order. -/
def provisionEsim (v : Vendor) (orderId sku : String) (quantity : Nat) :
    Except PErr EsimDetails × List PEffect :=
  if v.balance < 10 then
    (Except.error (PErr.insufficientBalance v.balance),
     [PEffect.balanceQuery,
      PEffect.orderNote orderId (failNote (PErr.insufficientBalance v.balance)) true])
  else
    let orderNumber := v.placeOrder orderId sku quantity
    let pre := [PEffect.balanceQuery, PEffect.placeOrderCall orderId sku quantity,
                PEffect.sleepMs 5000]
    let res := pollEsimStatus v orderNumber 10
    match res.1 with
    | PollOutcome.found d =>
      (Except.ok d, pre ++ res.2 ++
        [PEffect.orderNote orderId (formatEsimNote d) true,
         PEffect.metaUpdate orderId (updateOrderMetaBody
           [("iccid", d.iccid), ("qr_code", d.qrCode),
            ("activation_link", d.activationLink), ("status", "provisioned")])])
    | PollOutcome.threw e =>
      (Except.error (PErr.vendorError e), pre ++ res.2 ++
        [PEffect.orderNote orderId (failNote (PErr.vendorError e)) true])
    | PollOutcome.exhausted =>
      (Except.error PErr.typeErrorUndefined, pre ++ res.2 ++
        [PEffect.orderNote orderId (failNote PErr.typeErrorUndefined) true])

/-- Recognizer for vendor order-placement effects. -/
def isPlaceOrder : PEffect → Bool
  | PEffect.placeOrderCall _ _ _ => true
  | _ => false

/-- Recognizer for vendor poll-call effects. -/
def isPollCall : PEffect → Bool
  | PEffect.pollCall _ _ => true
  | _ => false

/-- Recognizer for order-ledger note effects. -/
def isOrderNote : PEffect → Bool
  | PEffect.orderNote _ _ _ => true
  | _ => false

/-- Recognizer for order-ledger metadata-update effects. -/
def isMetaUpdate : PEffect → Bool
  | PEffect.metaUpdate _ _ => true
  | _ => false

/-- Check that some `sleepMs d` stands immediately before a `pollCall`
for attempt `i` in a trace. -/
def waitsJustBefore : List PEffect → Nat → Nat → Bool
  | PEffect.sleepMs d1 :: PEffect.pollCall onum i1 :: rest, i, d =>
    (d1 == d && i1 == i) || waitsJustBefore (PEffect.pollCall onum i1 :: rest) i d
  | _ :: rest, i, d => waitsJustBefore rest i d
  | [], _, _ => false

/-- One WooCommerce line item as destructured by the gateway. -/
structure LineItem where
  name : Option String := none
  sku : Option String := none
  product_id : String
  quantity : Nat
deriving DecidableEq

/-- Check whether `pat` occurs as a contiguous run inside `l`
(JavaScript `String.prototype.includes` on the character lists). -/
def charsHaveSub (pat : List Char) : List Char → Bool
  | [] => pat.isEmpty
  | c :: rest => pat.isPrefixOf (c :: rest) || charsHaveSub pat rest

/-- JavaScript `s.includes(pat)`. -/
def strIncludes (s pat : String) : Bool :=
  charsHaveSub pat.data s.data

/-- ASCII lowering of one character (the fragment of
`String.prototype.toLowerCase` relevant to the product names involved). -/
def charToLower (c : Char) : Char :=
  if 65 ≤ c.toNat ∧ c.toNat ≤ 90 then Char.ofNat (c.toNat + 32) else c

/-- JavaScript `s.toLowerCase()` on ASCII strings. -/
def strToLower (s : String) : String :=
  ⟨s.data.map charToLower⟩

/-- The gateway's line-item filter:
`item.name?.toLowerCase().includes('esim')` (a missing name is falsy). -/
def esimItemsOf (items : List LineItem) : List LineItem :=
  items.filter fun (it : LineItem) =>
    match it.name with
    | some n => strIncludes (strToLower n) "esim"
    | none => false

/-- Observable effects of one order-completed delivery, in temporal order. -/
inductive GEffect where
  /-- The immediate HTTP response to the caller. -/
  | respond (status : Nat)
  /-- One `provisioningService.provisionEsim(...)` invocation. -/
  | provisionCall (orderId sku : String) (quantity : Nat)
  /-- The `console.error` in the background catch block. -/
  | logError (msg : String)
deriving DecidableEq

/-- The background `for (const item of esimItems)` loop of the gateway:
each matching item is provisioned in turn (the n-th call sees the vendor as
`venv n`); a thrown provisioning error is caught by the surrounding
try/catch, logged, and ends the loop — remaining items are skipped. -/
def runItems (venv : Nat → Vendor) (orderId : String) : List LineItem → Nat → List GEffect
  | [], _ => []
  | it :: rest, n =>
    let sku := jsOrStr it.sku ("ESIM-" ++ it.product_id)
    let res := provisionEsim (venv n) orderId sku it.quantity
    match res.1 with
    | Except.ok _ =>
      GEffect.provisionCall orderId sku it.quantity :: runItems venv orderId rest (n + 1)
    | Except.error e =>
      [GEffect.provisionCall orderId sku it.quantity,
       GEffect.logError ("❌ Webhook error: " ++ errMessage e)]

/-- Controller `handleWooCommerceOrderCompleted`: respond 200 immediately,
then provision each line item whose name signals an eSIM product in the
background. -/
def handleWooCommerceOrderCompleted (venv : Nat → Vendor) (orderId : String)
    (line_items : Option (List LineItem)) : List GEffect :=
  GEffect.respond 200 :: runItems venv orderId (esimItemsOf (line_items.getD [])) 0

/-- Recognizer for gateway provisioning invocations. -/
def isProvisionCall : GEffect → Bool
  | GEffect.provisionCall _ _ _ => true
  | _ => false

/-- Recognizer for gateway HTTP responses. -/
def isRespond : GEffect → Bool
  | GEffect.respond _ => true
  | _ => false

/-- The authenticated caller of the usage endpoint. -/
structure Requester where
  id : String
  role : String
deriving DecidableEq

/-- Response of the usage endpoint. -/
inductive UsageResp where
  | notFound
  | forbidden
  | usageOk (u : String)
deriving DecidableEq

/-- Route `GET /esim/usage/:iccid`: resolve the row by iccid with
`select('user_id').single()` (so only `user_id` is projected — the spread
`...esim.metadata` in the subsequent update spreads `undefined` and
contributes nothing), check ownership, call the vendor usage check, and
overwrite the row's metadata with only `last_usage`. `usage` is the raw
vendor usage payload. -/
def usageRoute (now : Nat) (user : Requester) (iccid : String) (usage : String) (db : Db) :
    Db × UsageResp :=
  match db.esims.filter fun (r : Esim) => r.iccid = iccid with
  | [row] =>
    if row.user_id ≠ user.id ∧ user.role ≠ "admin" then (db, UsageResp.forbidden)
    else
      ({ db with esims := db.esims.map fun (r : Esim) =>
          if r.iccid = iccid then
            { r with metadata := [("last_usage", MetaVal.usageData usage)], updated_at := now }
          else r },
       UsageResp.usageOk usage)
  | _ => (db, UsageResp.notFound)

/-! Concrete fixtures used by the closed theorems below. -/

/-- An eSIM row already in the terminal state `CANCELLED`. -/
def cancelledRow : Esim :=
  { id := "ESIM-1", order_id := "42", user_id := "U1", product_id := "P1",
    iccid := "X", status := "CANCELLED", deactivated_at := some 2,
    deactivation_reason := some "Cancelled by provider", created_at := 1, updated_at := 2 }

/-- A store holding only `cancelledRow`. -/
def dbTerminal : Db := { esims := [cancelledRow] }

/-- An eSIM row still in `PENDING_ACTIVATION`. -/
def pendingRow : Esim :=
  { id := "ESIM-2", order_id := "43", user_id := "U1", product_id := "P1",
    iccid := "X", status := "PENDING_ACTIVATION", created_at := 1, updated_at := 1 }

/-- A store holding only `pendingRow`. -/
def dbPending : Db := { esims := [pendingRow] }

/-- A `profile.activated` webhook payload for iccid `X`. -/
def wActivatedX : WebhookData :=
  { event := "profile.activated", profileId := some "PID-1", iccid := some "X",
    activationTime := some 100 }

/-- A profile with a non-empty iccid. -/
def dOk : EsimDetails :=
  { iccid := "8901000011112222", qrCode := "https://qr.example/1",
    activationLink := "https://act.example/1", status := "GOT_RESOURCE" }

/-- A profile whose iccid is still missing. -/
def dEmptyIccid : EsimDetails :=
  { iccid := "", qrCode := "", activationLink := "", status := "PENDING" }

/-- A vendor whose polls always answer without an iccid. -/
def vEmptyPoll : Vendor :=
  { balance := 100, currency := "USD", placeOrder := fun _ _ _ => "ON-1",
    pollResult := fun _ => Except.ok dEmptyIccid }

/-- A vendor that accepts the order and returns a full profile at once. -/
def vOk : Vendor :=
  { balance := 100, currency := "USD", placeOrder := fun _ _ _ => "ON-7",
    pollResult := fun _ => Except.ok dOk }

/-- A vendor whose account balance is 5, below the fixed threshold 10. -/
def vLow : Vendor :=
  { balance := 5, currency := "USD", placeOrder := fun _ _ _ => "ON-2",
    pollResult := fun _ => Except.ok dOk }

/-- The state after a first delivery of `wActivatedX` to `dbPending`. -/
def dbAfterFirstActivation : Db :=
  (webhookRoute 10 (RawBody.wellFormed wActivatedX) dbPending).1

/-- The state after a duplicate second delivery of `wActivatedX`. -/
def dbAfterSecondActivation : Db :=
  (webhookRoute 20 (RawBody.wellFormed wActivatedX) dbAfterFirstActivation).1

/-- A line item whose name signals an eSIM product (first of two). -/
def itemJp : LineItem :=
  { name := some "eSIM Japan 5GB", sku := some "S1", product_id := "101", quantity := 1 }

/-- A line item whose name signals an eSIM product (second of two). -/
def itemKr : LineItem :=
  { name := some "eSIM Korea 3GB", sku := some "S2", product_id := "102", quantity := 1 }

/-- A vendor environment in which every provisioning attempt sees the
low-balance vendor and therefore fails. -/
def venvLow : Nat → Vendor := fun _ => vLow

/-- C1, counterexample: a `profile.activated` webhook delivered to an
entity in the terminal state `CANCELLED` does not leave it unchanged — its
status is overwritten to `ACTIVE`, so terminal states are not absorbing. -/
theorem terminal_state_not_absorbing_cex :
    dbTerminal.esims.map Esim.status = ["CANCELLED"] ∧
    (webhookRoute 7 (RawBody.wellFormed wActivatedX) dbTerminal).1.esims.map Esim.status
      = ["ACTIVE"] := by decide

/-- C3, counterexample: when the vendor never returns a non-empty iccid,
`pollEsimStatus` with `maxRetries = 10` issues exactly 10 poll calls and
then returns silently (outcome `exhausted`, the JS `undefined`) — it raises
no `ProvisioningTimeout` error (no such error exists in the code). -/
theorem poll_exhaustion_returns_silently_cex :
    (pollEsimStatus vEmptyPoll "ON-1" 10).1 = PollOutcome.exhausted ∧
    (pollEsimStatus vEmptyPoll "ON-1" 10).2.countP isPollCall = 10 := by decide

/-- C4, counterexample: in a run where the vendor never returns an iccid,
poll attempt 2 is not preceded by a wait of `3000 * 2 ^ 2` ms as the claim
states; the delay standing immediately before it is `3000 * 2 ^ 1` ms (the
loop sleeps after attempt `i`, not before it). -/
theorem backoff_delay_not_as_claimed_cex :
    waitsJustBefore (provisionEsim vEmptyPoll "42" "ESIM-1" 1).2 2 (3000 * 2 ^ 2) = false ∧
    waitsJustBefore (provisionEsim vEmptyPoll "42" "ESIM-1" 1).2 2 (3000 * 2 ^ 1) = true := by
  decide

/-- C2: invoking `provisionEsim` twice with the same `(orderId, sku)` places
two vendor orders — no idempotency check against the record store runs
before order placement (the orchestrator never consults the store at all). -/
theorem duplicate_provisioning_places_two_vendor_orders :
    ((provisionEsim vOk "42" "ESIM-1" 1).2 ++ (provisionEsim vOk "42" "ESIM-1" 1).2).countP
        isPlaceOrder = 2 ∧
    (provisionEsim vOk "42" "ESIM-1" 1).1 = Except.ok dOk :=
  ⟨by decide, rfl⟩

/-- C5, counterexample: a malformed webhook body is acknowledged but the
store is left completely unchanged — in particular no `system_logs` row
carrying the parse error is written, contrary to the claim. -/
theorem malformed_webhook_not_audited_cex :
    (webhookRoute 3 (RawBody.malformed "Unexpected token u in JSON at position 0")
        dbTerminal).1 = dbTerminal ∧
    (webhookRoute 3 (RawBody.malformed "Unexpected token u in JSON at position 0")
        dbTerminal).2.1
      = { status := 200, received := true, error := some "Unexpected token u in JSON at position 0" } := by
  decide

/-- C6, counterexample: delivering the same `profile.activated` event twice
appends a second activation-log entry (the handler logs unconditionally on
every delivery), contrary to the claim; the entity does end `ACTIVE`. -/
theorem duplicate_activation_appends_second_log_cex :
    dbAfterFirstActivation.activationLogs.length = 1 ∧
    dbAfterSecondActivation.activationLogs.length = 2 ∧
    dbAfterSecondActivation.esims.map Esim.status = ["ACTIVE"] := by decide

/-- C9, counterexample: with two matching eSIM line items and a first
provisioning that fails, the gateway invokes the orchestrator only once —
the failure aborts the loop and the second matching item is skipped. -/
theorem gateway_stops_after_first_failure_cex :
    (esimItemsOf [itemJp, itemKr]).length = 2 ∧
    (handleWooCommerceOrderCompleted venvLow "42" (some [itemJp, itemKr])).countP
        isProvisionCall = 1 := by decide

/-- Extending a poll-trace adjacency invariant across one more
query/sleep pair at attempt `i`. -/
theorem pollAdj_extend (onum : String) (i : Nat) (t : List PEffect)
    (ih : ∀ k on2 j, t[k]? = some (PEffect.pollCall on2 j) →
      (k = 0 ∧ j = i + 1) ∨ (i + 1 < j ∧ ∃ k1, k = k1 + 1 ∧
        t[k1]? = some (PEffect.sleepMs (3000 * 2 ^ (j - 1))))) :
    ∀ k on2 j,
      (PEffect.pollCall onum i :: PEffect.sleepMs (3000 * 2 ^ i) :: t)[k]?
          = some (PEffect.pollCall on2 j) →
      (k = 0 ∧ j = i) ∨ (i < j ∧ ∃ k1, k = k1 + 1 ∧
        (PEffect.pollCall onum i :: PEffect.sleepMs (3000 * 2 ^ i) :: t)[k1]?
          = some (PEffect.sleepMs (3000 * 2 ^ (j - 1)))) := by
  intro k on2 j hk
  match k with
  | 0 =>
    left
    simp only [List.getElem?_cons_zero, Option.some.injEq, PEffect.pollCall.injEq] at hk
    exact ⟨rfl, hk.2.symm⟩
  | 1 => simp at hk
  | m + 2 =>
    simp only [List.getElem?_cons_succ] at hk
    rcases ih m on2 j hk with ⟨hm, hj⟩ | ⟨hij, m1, hm, hsl⟩
    · subst hm
      subst hj
      right
      refine ⟨Nat.lt_succ_self i, 1, rfl, ?_⟩
      simp
    · right
      refine ⟨Nat.lt_of_succ_lt hij, m1 + 2, by omega, ?_⟩
      simpa using hsl

/-- Adjacency invariant of the poll-loop trace: the first poll call stands
at the head of the trace for attempt `i`, and every later poll call for
attempt `j` is immediately preceded by the `3000 * 2 ^ (j - 1)` ms sleep
emitted after attempt `j - 1`. -/
theorem pollLoop_adj (v : Vendor) (onum : String) :
    ∀ fuel i k on2 j,
      ((pollLoop v onum i fuel).2)[k]? = some (PEffect.pollCall on2 j) →
      (k = 0 ∧ j = i) ∨ (i < j ∧ ∃ k1, k = k1 + 1 ∧
        ((pollLoop v onum i fuel).2)[k1]?
          = some (PEffect.sleepMs (3000 * 2 ^ (j - 1)))) := by
  intro fuel
  induction fuel with
  | zero => intro i k on2 j hk; simp [pollLoop] at hk
  | succ f ih =>
    intro i k on2 j hk
    cases hres : v.pollResult i with
    | ok d =>
      by_cases hicc : d.iccid = ""
      · rw [show (pollLoop v onum i (f + 1)).2
              = PEffect.pollCall onum i :: PEffect.sleepMs (3000 * 2 ^ i) ::
                  (pollLoop v onum (i + 1) f).2 by
            simp [pollLoop, hres, hicc]] at hk ⊢
        exact pollAdj_extend onum i (pollLoop v onum (i + 1) f).2 (ih (i + 1)) k on2 j hk
      · rw [show (pollLoop v onum i (f + 1)).2 = [PEffect.pollCall onum i] by
            simp [pollLoop, hres, hicc]] at hk
        match k with
        | 0 =>
          left
          simp only [List.getElem?_cons_zero, Option.some.injEq, PEffect.pollCall.injEq] at hk
          exact ⟨rfl, hk.2.symm⟩
        | m + 1 => simp at hk
    | error e =>
      by_cases hf : f = 0
      · rw [show (pollLoop v onum i (f + 1)).2 = [PEffect.pollCall onum i] by
              simp [pollLoop, hres, hf]] at hk
        match k with
        | 0 =>
          left
          simp only [List.getElem?_cons_zero, Option.some.injEq, PEffect.pollCall.injEq] at hk
          exact ⟨rfl, hk.2.symm⟩
        | m + 1 => simp at hk
      · rw [show (pollLoop v onum i (f + 1)).2
              = PEffect.pollCall onum i :: PEffect.sleepMs (3000 * 2 ^ i) ::
                  (pollLoop v onum (i + 1) f).2 by
            simp [pollLoop, hres, hf]] at hk ⊢
        exact pollAdj_extend onum i (pollLoop v onum (i + 1) f).2 (ih (i + 1)) k on2 j hk

/-- A one-note trailer contains no poll calls. -/
theorem tail_note_no_poll (oid note : String) (c : Bool) :
    ∀ (idx : Nat) (on2 : String) (j : Nat), ([PEffect.orderNote oid note c])[idx]? ≠ some (PEffect.pollCall on2 j) := by
  intro idx on2 j h
  match idx with
  | 0 => simp at h
  | n + 1 => simp at h

/-- A note-plus-metadata trailer contains no poll calls. -/
theorem tail_note_meta_no_poll (oid note : String) (c : Bool) (md : List (String × String)) :
    ∀ (idx : Nat) (on2 : String) (j : Nat),
      ([PEffect.orderNote oid note c, PEffect.metaUpdate oid md])[idx]?
        ≠ some (PEffect.pollCall on2 j) := by
  intro idx on2 j h
  match idx with
  | 0 => simp at h
  | 1 => simp at h
  | n + 2 => simp at h

/-- Every poll call in a full success-path trace (grace sleep, then the poll
trace, then a trailer without poll calls) is immediately preceded by the
right delay: 5000 ms for attempt 1, `3000 * 2 ^ (j - 1)` ms for attempt
`j ≥ 2`. -/
theorem grace_then_backoff (v : Vendor) (onum oid sku : String) (q : Nat)
    (tail : List PEffect)
    (htail : ∀ (idx : Nat) (on2 : String) (j : Nat), tail[idx]? ≠ some (PEffect.pollCall on2 j)) :
    ∀ k on2 j,
      (PEffect.balanceQuery :: PEffect.placeOrderCall oid sku q :: PEffect.sleepMs 5000 ::
          ((pollLoop v onum 1 10).2 ++ tail))[k]? = some (PEffect.pollCall on2 j) →
      ∃ k1, k = k1 + 1 ∧
        (PEffect.balanceQuery :: PEffect.placeOrderCall oid sku q :: PEffect.sleepMs 5000 ::
            ((pollLoop v onum 1 10).2 ++ tail))[k1]?
          = some (PEffect.sleepMs (if j = 1 then 5000 else 3000 * 2 ^ (j - 1))) := by
  intro k on2 j hk
  match k with
  | 0 => simp at hk
  | 1 => simp at hk
  | 2 => simp at hk
  | m + 3 =>
    simp only [List.getElem?_cons_succ] at hk
    by_cases hm : m < (pollLoop v onum 1 10).2.length
    · rw [List.getElem?_append_left hm] at hk
      rcases pollLoop_adj v onum 10 1 m on2 j hk with ⟨hm0, hj⟩ | ⟨h1j, m1, hmm, hsl⟩
      · subst hm0
        subst hj
        exact ⟨2, rfl, by simp⟩
      · refine ⟨m1 + 3, by omega, ?_⟩
        have hm1 : m1 < (pollLoop v onum 1 10).2.length := by omega
        have hj1 : j ≠ 1 := by omega
        simp only [List.getElem?_cons_succ]
        rw [List.getElem?_append_left hm1, hsl]
        simp [hj1]
    · rw [List.getElem?_append_right (Nat.le_of_not_lt hm)] at hk
      exact absurd hk (htail _ on2 j)

/-- C4, amended: the poll loop sleeps after each query, not before it, so
in any orchestration trace every poll query for attempt `j` is immediately
preceded by a delay — the initial fixed 5000 ms grace delay when `j = 1`,
and the `3000 * 2 ^ (j - 1)` ms backoff sleep emitted after attempt
`j - 1` when `j ≥ 2` (not `3000 * 2 ^ j` as claimed). In particular no
poll query is ever issued before at least one delay has elapsed. -/
theorem poll_attempts_preceded_by_delay (v : Vendor) (orderId sku : String) (quantity : Nat) :
    ∀ (k : Nat) (on2 : String) (j : Nat),
      ((provisionEsim v orderId sku quantity).2)[k]? = some (PEffect.pollCall on2 j) →
      ∃ k1, k = k1 + 1 ∧
        ((provisionEsim v orderId sku quantity).2)[k1]?
          = some (PEffect.sleepMs (if j = 1 then 5000 else 3000 * 2 ^ (j - 1))) := by
  intro k on2 j hk
  by_cases hb : v.balance < 10
  · rw [show (provisionEsim v orderId sku quantity).2
        = [PEffect.balanceQuery,
           PEffect.orderNote orderId (failNote (PErr.insufficientBalance v.balance)) true] by
      simp [provisionEsim, hb]] at hk
    match k with
    | 0 => simp at hk
    | 1 => simp at hk
    | m + 2 => simp at hk
  · rcases hout : (pollEsimStatus v (v.placeOrder orderId sku quantity) 10).1 with d | e | -
    ·
      rw [show (provisionEsim v orderId sku quantity).2
          = PEffect.balanceQuery :: PEffect.placeOrderCall orderId sku quantity ::
            PEffect.sleepMs 5000 ::
            ((pollLoop v (v.placeOrder orderId sku quantity) 1 10).2 ++
              [PEffect.orderNote orderId (formatEsimNote d) true,
               PEffect.metaUpdate orderId (updateOrderMetaBody
                 [("iccid", d.iccid), ("qr_code", d.qrCode),
                  ("activation_link", d.activationLink), ("status", "provisioned")])]) by
        simp [provisionEsim, hb, pollEsimStatus] at hout ⊢
        simp [hout]] at hk ⊢
      exact grace_then_backoff v (v.placeOrder orderId sku quantity) orderId sku quantity _
        (tail_note_meta_no_poll _ _ _ _) k on2 j hk
    ·
      rw [show (provisionEsim v orderId sku quantity).2
          = PEffect.balanceQuery :: PEffect.placeOrderCall orderId sku quantity ::
            PEffect.sleepMs 5000 ::
            ((pollLoop v (v.placeOrder orderId sku quantity) 1 10).2 ++
              [PEffect.orderNote orderId (failNote (PErr.vendorError e)) true]) by
        simp [provisionEsim, hb, pollEsimStatus] at hout ⊢
        simp [hout]] at hk ⊢
      exact grace_then_backoff v (v.placeOrder orderId sku quantity) orderId sku quantity _
        (tail_note_no_poll _ _ _) k on2 j hk
    ·
      rw [show (provisionEsim v orderId sku quantity).2
          = PEffect.balanceQuery :: PEffect.placeOrderCall orderId sku quantity ::
            PEffect.sleepMs 5000 ::
            ((pollLoop v (v.placeOrder orderId sku quantity) 1 10).2 ++
              [PEffect.orderNote orderId (failNote PErr.typeErrorUndefined) true]) by
        simp [provisionEsim, hb, pollEsimStatus] at hout ⊢
        simp [hout]] at hk ⊢
      exact grace_then_backoff v (v.placeOrder orderId sku quantity) orderId sku quantity _
        (tail_note_no_poll _ _ _) k on2 j hk

/-- C4, witness at a concrete vendor: poll attempt 1 sits at index 3 of the
trace and is preceded by the 5000 ms grace sleep at index 2. -/
theorem poll_attempts_preceded_by_delay_witness :
    ((provisionEsim vEmptyPoll "42" "ESIM-1" 1).2)[3]? = some (PEffect.pollCall "ON-1" 1) ∧
    ∃ k1, 3 = k1 + 1 ∧
      ((provisionEsim vEmptyPoll "42" "ESIM-1" 1).2)[k1]?
        = some (PEffect.sleepMs (if 1 = 1 then 5000 else 3000 * 2 ^ (1 - 1))) :=
  ⟨by decide, poll_attempts_preceded_by_delay vEmptyPoll "42" "ESIM-1" 1 3 "ON-1" 1 (by decide)⟩

/-- When every poll answer carries an empty iccid, the loop consumes all its
fuel, returns no value, and issues one poll call per unit of fuel. -/
theorem pollLoop_all_empty (v : Vendor) (onum : String)
    (h : ∀ n, ∃ d, v.pollResult n = Except.ok d ∧ d.iccid = "") :
    ∀ fuel i, (pollLoop v onum i fuel).1 = PollOutcome.exhausted ∧
      (pollLoop v onum i fuel).2.countP isPollCall = fuel := by
  intro fuel
  induction fuel with
  | zero => intro i; exact ⟨rfl, rfl⟩
  | succ f ih =>
    intro i
    obtain ⟨d, hd, hicc⟩ := h i
    refine ⟨?_, ?_⟩
    · simp [pollLoop, hd, hicc, (ih (i + 1)).1]
    · simp [pollLoop, hd, hicc, List.countP_cons, isPollCall, (ih (i + 1)).2]

/-- C3, amended: if the vendor never returns a profile with a non-empty
ICCID, the poll loop issues exactly 10 poll calls and then returns no value
(the JS function falls off the loop and returns `undefined` — no
`ProvisioningTimeout` error exists); the enclosing `provisionEsim` call then
fails, but only with the TypeError raised while formatting the note from
the missing result, so provisioning does not succeed. -/
theorem poll_timeout_behavior (v : Vendor) (orderId sku : String) (quantity : Nat)
    (hb : ¬v.balance < 10)
    (h : ∀ n, ∃ d, v.pollResult n = Except.ok d ∧ d.iccid = "") :
    (pollEsimStatus v (v.placeOrder orderId sku quantity) 10).1 = PollOutcome.exhausted ∧
    (pollEsimStatus v (v.placeOrder orderId sku quantity) 10).2.countP isPollCall = 10 ∧
    (provisionEsim v orderId sku quantity).1 = Except.error PErr.typeErrorUndefined ∧
    (provisionEsim v orderId sku quantity).2.countP isPollCall = 10 := by
  obtain ⟨he, hc⟩ := pollLoop_all_empty v (v.placeOrder orderId sku quantity) h 10 1
  refine ⟨he, hc, ?_, ?_⟩
  · simp [provisionEsim, hb, pollEsimStatus, he]
  · simp [provisionEsim, hb, pollEsimStatus, he, List.countP_append, List.countP_cons,
      isPollCall, hc]

/-- C3, witness at a concrete vendor whose polls always come back without
an iccid. -/
theorem poll_timeout_behavior_witness :
    ¬(100 : Int) < 10 ∧
    ((pollEsimStatus vEmptyPoll (vEmptyPoll.placeOrder "42" "ESIM-1" 1) 10).1
        = PollOutcome.exhausted ∧
      (pollEsimStatus vEmptyPoll (vEmptyPoll.placeOrder "42" "ESIM-1" 1) 10).2.countP
          isPollCall = 10 ∧
      (provisionEsim vEmptyPoll "42" "ESIM-1" 1).1 = Except.error PErr.typeErrorUndefined ∧
      (provisionEsim vEmptyPoll "42" "ESIM-1" 1).2.countP isPollCall = 10) :=
  ⟨by decide,
   poll_timeout_behavior vEmptyPoll "42" "ESIM-1" 1 (by decide)
     (fun _ => ⟨dEmptyIccid, rfl, rfl⟩)⟩

/-- C7: when the vendor balance is below the fixed threshold 10, the
orchestrator fails with the insufficient-balance error before placing any
vendor order: the trace holds zero order placements and zero polls (only
the balance query and the failure note). -/
theorem provision_insufficient_funds (v : Vendor) (orderId sku : String) (quantity : Nat)
    (h : v.balance < 10) :
    (provisionEsim v orderId sku quantity).1
        = Except.error (PErr.insufficientBalance v.balance) ∧
    (provisionEsim v orderId sku quantity).2.countP isPlaceOrder = 0 ∧
    (provisionEsim v orderId sku quantity).2.countP isPollCall = 0 := by
  unfold provisionEsim
  rw [if_pos h]
  exact ⟨rfl, rfl, rfl⟩

/-- C7, witness: balance 5 against threshold 10 fails fast with zero vendor
order placements. -/
theorem provision_insufficient_funds_witness :
    (5 : Int) < 10 ∧
    ((provisionEsim vLow "42" "ESIM-1" 1).1
        = Except.error (PErr.insufficientBalance 5) ∧
      (provisionEsim vLow "42" "ESIM-1" 1).2.countP isPlaceOrder = 0 ∧
      (provisionEsim vLow "42" "ESIM-1" 1).2.countP isPollCall = 0) :=
  ⟨by decide, provision_insufficient_funds vLow "42" "ESIM-1" 1 (by decide)⟩

/-- A vendor that answers without an iccid on attempts 1 and 2 and with the
full profile from attempt 3 on. -/
def v8 : Vendor :=
  { balance := 100, currency := "USD", placeOrder := fun _ _ _ => "ON-8",
    pollResult := fun n => if n < 3 then Except.ok dEmptyIccid else Except.ok dOk }

/-- C8: with sufficient balance and the vendor returning a full profile on
poll attempt 3 (attempts 1 and 2 still lacking an iccid), the orchestration
succeeds with that profile, the order ledger receives exactly one note —
whose text contains the ICCID — and exactly one structured metadata update
carrying `_esim_status = provisioned` together with the ICCID, QR payload
and activation link. -/
theorem provision_success_annotations (v : Vendor) (orderId sku : String) (quantity : Nat)
    (d1 d2 d : EsimDetails)
    (hb : ¬v.balance < 10)
    (h1 : v.pollResult 1 = Except.ok d1) (he1 : d1.iccid = "")
    (h2 : v.pollResult 2 = Except.ok d2) (he2 : d2.iccid = "")
    (h3 : v.pollResult 3 = Except.ok d) (hd : d.iccid ≠ "") :
    (provisionEsim v orderId sku quantity).1 = Except.ok d ∧
    (provisionEsim v orderId sku quantity).2.filter isOrderNote
      = [PEffect.orderNote orderId (formatEsimNote d) true] ∧
    (provisionEsim v orderId sku quantity).2.filter isMetaUpdate
      = [PEffect.metaUpdate orderId
          [("_esim_iccid", d.iccid), ("_esim_qr_code", d.qrCode),
           ("_esim_activation_link", d.activationLink), ("_esim_status", "provisioned")]] ∧
    ∃ pre post, formatEsimNote d = pre ++ d.iccid ++ post := by
  have hpoll : pollLoop v (v.placeOrder orderId sku quantity) 1 10
      = (PollOutcome.found d,
         [PEffect.pollCall (v.placeOrder orderId sku quantity) 1,
          PEffect.sleepMs 6000,
          PEffect.pollCall (v.placeOrder orderId sku quantity) 2,
          PEffect.sleepMs 12000,
          PEffect.pollCall (v.placeOrder orderId sku quantity) 3]) := by
    simp [pollLoop, h1, he1, h2, he2, h3, hd]
  refine ⟨?_, ?_, ?_,
    ⟨"\n🔰 Your eSIM is ready!\n📱 ICCID: ",
     "\n🔗 Activation: " ++ d.activationLink ++ "\n📸 QR: " ++ d.qrCode ++ "\n    ",
     by simp [formatEsimNote, String.append_assoc]⟩⟩
  · simp [provisionEsim, hb, pollEsimStatus, hpoll]
  · simp [provisionEsim, hb, pollEsimStatus, hpoll, List.filter_append, List.filter,
      isOrderNote, updateOrderMetaBody]
  · simp [provisionEsim, hb, pollEsimStatus, hpoll, List.filter_append, List.filter,
      isMetaUpdate, updateOrderMetaBody]

/-- C8, witness: a concrete run in which attempt 3 delivers iccid
`8901000011112222` — one note containing it, one provisioned-status
metadata update. -/
theorem provision_success_annotations_witness :
    ¬(100 : Int) < 10 ∧
    ((provisionEsim v8 "42" "ESIM-TRAVEL" 1).1 = Except.ok dOk ∧
      (provisionEsim v8 "42" "ESIM-TRAVEL" 1).2.filter isOrderNote
        = [PEffect.orderNote "42" (formatEsimNote dOk) true] ∧
      (provisionEsim v8 "42" "ESIM-TRAVEL" 1).2.filter isMetaUpdate
        = [PEffect.metaUpdate "42"
            [("_esim_iccid", dOk.iccid), ("_esim_qr_code", dOk.qrCode),
             ("_esim_activation_link", dOk.activationLink), ("_esim_status", "provisioned")]] ∧
      ∃ pre post, formatEsimNote dOk = pre ++ dOk.iccid ++ post) :=
  ⟨by decide,
   provision_success_annotations v8 "42" "ESIM-TRAVEL" 1 dEmptyIccid dEmptyIccid dOk
     (by decide) rfl rfl rfl rfl rfl (by decide)⟩

/-- The state each lifecycle event writes, as dispatched by the webhook
switch (the non-entity events `usage.threshold` and `balance.low` and
unknown events map to `none`). -/
def lifecycleTarget (event : String) : Option String :=
  if event = "profile.activated" then some "ACTIVE"
  else if event = "profile.suspended" then some "SUSPENDED"
  else if event = "profile.unsuspended" then some "ACTIVE"
  else if event = "profile.cancelled" then some "CANCELLED"
  else if event = "profile.expired" then some "EXPIRED"
  else if event = "profile.revoked" then some "REVOKED"
  else none

/-- Membership in an update-where-iccid-matches map: a row whose iccid
matches the payload carries the updated status. -/
theorem status_of_mem_updateWhere (w : WebhookData) (l : List Esim) (s2 : String)
    (upd : Esim → Esim)
    (hst : ∀ r0, (upd r0).status = s2)
    (r : Esim)
    (hr : r ∈ l.map fun (r0 : Esim) => if some r0.iccid = w.iccid then upd r0 else r0)
    (hicc : some r.iccid = w.iccid) : r.status = s2 := by
  obtain ⟨r0, hr0, heq⟩ := List.mem_map.mp hr
  by_cases hc : some r0.iccid = w.iccid
  · rw [if_pos hc] at heq
    subst heq
    exact hst r0
  · rw [if_neg hc] at heq
    subst heq
    exact absurd hicc hc

/-- Dispatching a lifecycle event writes its target state into every
matching row, whatever state the row was in before. -/
theorem processEvent_status (now : Nat) (w : WebhookData) (db : Db) (s2 : String)
    (hev : lifecycleTarget w.event = some s2) :
    ∀ r ∈ (processEvent now w db).1.esims, some r.iccid = w.iccid → r.status = s2 := by
  intro r hr hicc
  unfold lifecycleTarget at hev
  unfold processEvent at hr
  by_cases h1 : w.event = "profile.activated"
  · rw [if_pos h1] at hev hr
    obtain rfl : "ACTIVE" = s2 := Option.some_inj.mp hev
    simp only [handleProfileActivated] at hr
    exact status_of_mem_updateWhere w db.esims _
      (fun r0 =>
        { r0 with status := "ACTIVE",
                  activated_at := some (jsOrNow w.activationTime now), updated_at := now })
      (fun r0 => rfl) r hr hicc
  rw [if_neg h1] at hev hr
  by_cases h2 : w.event = "profile.suspended"
  · rw [if_pos h2] at hev hr
    obtain rfl : "SUSPENDED" = s2 := Option.some_inj.mp hev
    simp only [handleProfileSuspended] at hr
    exact status_of_mem_updateWhere w db.esims _
      (fun r0 =>
        { r0 with status := "SUSPENDED", metadata := reasonMeta w.reason,
                  updated_at := now })
      (fun r0 => rfl) r hr hicc
  rw [if_neg h2] at hev hr
  by_cases h3 : w.event = "profile.unsuspended"
  · rw [if_pos h3] at hev hr
    obtain rfl : "ACTIVE" = s2 := Option.some_inj.mp hev
    simp only [handleProfileUnsuspended] at hr
    exact status_of_mem_updateWhere w db.esims _
      (fun r0 =>
        { r0 with status := "ACTIVE",
                  metadata := [("suspension_reason", MetaVal.null)], updated_at := now })
      (fun r0 => rfl) r hr hicc
  rw [if_neg h3] at hev hr
  by_cases h4 : w.event = "profile.cancelled"
  · rw [if_pos h4] at hev hr
    obtain rfl : "CANCELLED" = s2 := Option.some_inj.mp hev
    simp only [handleProfileCancelled] at hr
    exact status_of_mem_updateWhere w db.esims _
      (fun r0 =>
        { r0 with status := "CANCELLED", deactivated_at := some now,
                  deactivation_reason := some (jsOrStr w.reason "Cancelled by provider"),
                  updated_at := now })
      (fun r0 => rfl) r hr hicc
  rw [if_neg h4] at hev hr
  by_cases h5 : w.event = "profile.expired"
  · rw [if_pos h5] at hev hr
    obtain rfl : "EXPIRED" = s2 := Option.some_inj.mp hev
    simp only [handleProfileExpired] at hr
    exact status_of_mem_updateWhere w db.esims _
      (fun r0 => { r0 with status := "EXPIRED", updated_at := now })
      (fun r0 => rfl) r hr hicc
  rw [if_neg h5] at hev hr
  by_cases h6 : w.event = "profile.revoked"
  · rw [if_pos h6] at hev hr
    obtain rfl : "REVOKED" = s2 := Option.some_inj.mp hev
    simp only [handleProfileRevoked] at hr
    exact status_of_mem_updateWhere w db.esims _
      (fun r0 =>
        { r0 with status := "REVOKED", deactivated_at := some now,
                  deactivation_reason := some (jsOrStr w.reason "Revoked by provider"),
                  updated_at := now })
      (fun r0 => rfl) r hr hicc
  rw [if_neg h6] at hev
  exact absurd hev (by simp)

/-- C1, amended: the webhook handlers apply lifecycle transitions
unconditionally — processing a lifecycle event overwrites the status of
every entity matching the payload's iccid with the event's target state
even when the entity is in a terminal state (terminal states are not
absorbing), and the delivery is acknowledged with 200 and no error either
way. -/
theorem lifecycle_events_applied_unconditionally (now : Nat) (w : WebhookData) (db : Db)
    (s2 : String) (hev : lifecycleTarget w.event = some s2) :
    (∀ r ∈ (webhookRoute now (RawBody.wellFormed w) db).1.esims,
      some r.iccid = w.iccid → r.status = s2) ∧
    (webhookRoute now (RawBody.wellFormed w) db).2.1
      = { status := 200, received := true, error := none } := by
  constructor
  · intro r hr hicc
    exact processEvent_status now w
      { db with systemLogs := db.systemLogs ++
          [{ level := "info", service := "esim-webhook", message := "Webhook received",
             meta := w, created_at := now }] } s2 hev r hr hicc
  · rfl

/-- C1, witness: a `profile.activated` event addressed to a `CANCELLED`
entity rewrites its status to `ACTIVE` and is acknowledged without error. -/
theorem lifecycle_events_applied_unconditionally_witness :
    lifecycleTarget wActivatedX.event = some "ACTIVE" ∧
    ((∀ r ∈ (webhookRoute 7 (RawBody.wellFormed wActivatedX) dbTerminal).1.esims,
        some r.iccid = wActivatedX.iccid → r.status = "ACTIVE") ∧
      (webhookRoute 7 (RawBody.wellFormed wActivatedX) dbTerminal).2.1
        = { status := 200, received := true, error := none }) :=
  ⟨by decide, lifecycle_events_applied_unconditionally 7 wActivatedX dbTerminal "ACTIVE"
    (by decide)⟩

/-- C6, amended: delivering the same `profile.activated` event (carrying a
non-zero `activationTime`) twice leaves every matching entity `ACTIVE` with
`activated_at` equal to the payload timestamp — the second delivery
rewrites the same value, so the timestamp is unchanged only because the
payload repeats it — but each delivery appends one activation-log entry
(two entries total), and both deliveries are acknowledged without error. -/
theorem duplicate_activation_behavior (t1 t2 : Nat) (w : WebhookData) (db : Db)
    (icc : String) (a : Nat)
    (hev : w.event = "profile.activated") (hicc : w.iccid = some icc)
    (hat : w.activationTime = some a) (ha : a ≠ 0) :
    (∀ r ∈ (webhookRoute t2 (RawBody.wellFormed w)
        (webhookRoute t1 (RawBody.wellFormed w) db).1).1.esims,
      r.iccid = icc → r.status = "ACTIVE" ∧ r.activated_at = some a) ∧
    (webhookRoute t2 (RawBody.wellFormed w)
        (webhookRoute t1 (RawBody.wellFormed w) db).1).1.activationLogs.length
      = db.activationLogs.length + 2 ∧
    (webhookRoute t1 (RawBody.wellFormed w) db).2.1
      = { status := 200, received := true, error := none } ∧
    (webhookRoute t2 (RawBody.wellFormed w)
        (webhookRoute t1 (RawBody.wellFormed w) db).1).2.1
      = { status := 200, received := true, error := none } := by
  have hes : ∀ (t : Nat) (d : Db),
      (webhookRoute t (RawBody.wellFormed w) d).1.esims
        = d.esims.map (fun (r0 : Esim) =>
            if some r0.iccid = w.iccid then
              { r0 with status := "ACTIVE",
                        activated_at := some (jsOrNow w.activationTime t), updated_at := t }
            else r0) := by
    intro t d
    simp [webhookRoute, processEvent, hev, handleProfileActivated]
  have hlog : ∀ (t : Nat) (d : Db),
      (webhookRoute t (RawBody.wellFormed w) d).1.activationLogs
        = d.activationLogs ++
            [{ esim_id := w.profileId, action := "ACTIVATED", meta := w,
               created_at := t }] := by
    intro t d
    simp [webhookRoute, processEvent, hev, handleProfileActivated]
  refine ⟨?_, ?_, rfl, rfl⟩
  · intro r hr hricc
    rw [hes, hes, List.map_map] at hr
    obtain ⟨r0, hr0, heq⟩ := List.mem_map.mp hr
    by_cases hc : some r0.iccid = w.iccid
    · simp only [Function.comp, if_pos hc] at heq
      subst heq
      exact ⟨rfl, by simp [jsOrNow, hat, ha]⟩
    · simp only [Function.comp, if_neg hc] at heq
      subst heq
      exact absurd (by rw [hicc]; exact congrArg some hricc) hc
  · rw [hlog, hlog]
    simp

/-- C6, witness: duplicated delivery of `wActivatedX` to `dbPending` ends
`ACTIVE` with timestamp 100 and two activation-log entries. -/
theorem duplicate_activation_behavior_witness :
    wActivatedX.event = "profile.activated" ∧
    ((∀ r ∈ (webhookRoute 20 (RawBody.wellFormed wActivatedX)
        (webhookRoute 10 (RawBody.wellFormed wActivatedX) dbPending).1).1.esims,
        r.iccid = "X" → r.status = "ACTIVE" ∧ r.activated_at = some 100) ∧
      (webhookRoute 20 (RawBody.wellFormed wActivatedX)
          (webhookRoute 10 (RawBody.wellFormed wActivatedX) dbPending).1).1.activationLogs.length
        = dbPending.activationLogs.length + 2 ∧
      (webhookRoute 10 (RawBody.wellFormed wActivatedX) dbPending).2.1
        = { status := 200, received := true, error := none } ∧
      (webhookRoute 20 (RawBody.wellFormed wActivatedX)
          (webhookRoute 10 (RawBody.wellFormed wActivatedX) dbPending).1).2.1
        = { status := 200, received := true, error := none }) :=
  ⟨rfl, duplicate_activation_behavior 10 20 wActivatedX dbPending "X" 100 rfl rfl rfl
    (by decide)⟩

/-- Event dispatch never touches the `system_logs` audit table: only the
route itself writes to it. -/
theorem processEvent_systemLogs (now : Nat) (w : WebhookData) (d : Db) :
    (processEvent now w d).1.systemLogs = d.systemLogs := by
  unfold processEvent
  repeat' split
  · simp [handleProfileActivated]
  · simp [handleProfileSuspended]
  · simp [handleProfileUnsuspended]
  · simp [handleProfileCancelled]
  · simp [handleProfileExpired]
  · simp [handleProfileRevoked]
  · unfold handleUsageThreshold
    repeat' split
    all_goals rfl
  · simp [handleBalanceLow]
  · rfl

/-- C5, amended: a well-formed webhook event is persisted to the
`system_logs` audit sink before any entity mutation — the audit insert is
the second trace effect, after the initial process-log line and strictly
before every `esims` update — and the delivery is acknowledged; a
malformed payload is acknowledged carrying the parse error and causes no
store change at all: in particular no system-log entry recording the parse
error is written (the error goes only to the process logger). -/
theorem webhook_audit_ordering (now : Nat) (db : Db) :
    (∀ w : WebhookData,
      ((webhookRoute now (RawBody.wellFormed w) db).2.2)[1]?
          = some (WEffect.auditInsert w) ∧
      (webhookRoute now (RawBody.wellFormed w) db).1.systemLogs.length
          = db.systemLogs.length + 1 ∧
      (∀ (k : Nat) (i : Option String) (s : String),
        ((webhookRoute now (RawBody.wellFormed w) db).2.2)[k]?
            = some (WEffect.esimsUpdate i s) → 1 < k) ∧
      (webhookRoute now (RawBody.wellFormed w) db).2.1.received = true) ∧
    (∀ err : String,
      (webhookRoute now (RawBody.malformed err) db).1 = db ∧
      (webhookRoute now (RawBody.malformed err) db).2.2
        = [WEffect.procLog ("Webhook processing error: " ++ err),
           WEffect.ackSend 200 (some err)] ∧
      (webhookRoute now (RawBody.malformed err) db).2.1
        = { status := 200, received := true, error := some err }) := by
  constructor
  · intro w
    refine ⟨by simp [webhookRoute], ?_, ?_, rfl⟩
    · show (processEvent now w _).1.systemLogs.length = db.systemLogs.length + 1
      rw [processEvent_systemLogs]
      simp
    · intro k i s hk
      match k with
      | 0 => simp [webhookRoute] at hk
      | 1 => simp [webhookRoute] at hk
      | m + 2 => omega
  · intro err
    exact ⟨rfl, rfl, rfl⟩

/-- C5, witness: for a concrete activation event the audit insert stands at
trace index 1 and the `esims` update at index 2 (strictly later); the
concrete malformed delivery leaves the store untouched. -/
theorem webhook_audit_ordering_witness :
    (((webhookRoute 3 (RawBody.wellFormed wActivatedX) dbPending).2.2)[1]?
        = some (WEffect.auditInsert wActivatedX) ∧
      ((webhookRoute 3 (RawBody.wellFormed wActivatedX) dbPending).2.2)[2]?
        = some (WEffect.esimsUpdate (some "X") "ACTIVE") ∧
      1 < 2) ∧
    ((webhookRoute 3 (RawBody.malformed "Unexpected end of JSON input") dbPending).1
        = dbPending) :=
  ⟨⟨((webhook_audit_ordering 3 dbPending).1 wActivatedX).1, by decide,
    ((webhook_audit_ordering 3 dbPending).1 wActivatedX).2.2.1 2 (some "X") "ACTIVE"
      (by decide)⟩,
   ((webhook_audit_ordering 3 dbPending).2 "Unexpected end of JSON input").1⟩

/-- The background provisioning loop never answers the HTTP caller: the
only response is the one sent before it starts. -/
theorem runItems_no_respond (venv : Nat → Vendor) (oid : String) :
    ∀ (lst : List LineItem) (n : Nat), (runItems venv oid lst n).countP isRespond = 0 := by
  intro lst
  induction lst with
  | nil => intro n; rfl
  | cons it rest ih =>
    intro n
    cases hres : (provisionEsim (venv n) oid (jsOrStr it.sku ("ESIM-" ++ it.product_id))
        it.quantity).1 with
    | ok d => simp [runItems, hres, List.countP_cons, isRespond, ih (n + 1)]
    | error e => simp [runItems, hres, List.countP_cons, isRespond]

/-- When every provisioning invocation succeeds, the loop invokes the
orchestrator exactly once per item. -/
theorem runItems_count_all_ok (venv : Nat → Vendor) (oid : String) :
    ∀ (lst : List LineItem) (n : Nat),
      (∀ (k : Nat) (it : LineItem), lst[k]? = some it →
        ∃ d, (provisionEsim (venv (n + k)) oid (jsOrStr it.sku ("ESIM-" ++ it.product_id))
            it.quantity).1 = Except.ok d) →
      (runItems venv oid lst n).countP isProvisionCall = lst.length := by
  intro lst
  induction lst with
  | nil => intro n _h; rfl
  | cons it rest ih =>
    intro n h
    obtain ⟨d, hd⟩ := h 0 it (by simp)
    rw [Nat.add_zero] at hd
    have hrest := ih (n + 1) (fun k it2 hk => by
      obtain ⟨d2, hd2⟩ := h (k + 1) it2 (by simpa using hk)
      rw [show n + (k + 1) = n + 1 + k by omega] at hd2
      exact ⟨d2, hd2⟩)
    simp [runItems, hd, List.countP_cons, isProvisionCall, hrest]

/-- C9, amended: the caller is acknowledged immediately (the 200 response
is the first effect and the only response ever sent — orchestration errors
are only logged, never surfaced), and the orchestrator is invoked once per
line item whose name signals an eSIM product as long as each preceding
invocation succeeds; a provisioning failure ends the loop, so the items
after the failing one are skipped. -/
theorem order_completed_gateway_behavior (venv : Nat → Vendor) (orderId : String)
    (line_items : Option (List LineItem)) :
    ((handleWooCommerceOrderCompleted venv orderId line_items)[0]?
        = some (GEffect.respond 200)) ∧
    (handleWooCommerceOrderCompleted venv orderId line_items).countP isRespond = 1 ∧
    ((∀ (k : Nat) (it : LineItem), (esimItemsOf (line_items.getD []))[k]? = some it →
        ∃ d, (provisionEsim (venv k) orderId (jsOrStr it.sku ("ESIM-" ++ it.product_id))
            it.quantity).1 = Except.ok d) →
      (handleWooCommerceOrderCompleted venv orderId line_items).countP isProvisionCall
        = (esimItemsOf (line_items.getD [])).length) := by
  refine ⟨by simp [handleWooCommerceOrderCompleted], ?_, ?_⟩
  · simp [handleWooCommerceOrderCompleted, List.countP_cons, isRespond, runItems_no_respond]
  · intro h
    have hc := runItems_count_all_ok venv orderId (esimItemsOf (line_items.getD [])) 0
      (fun k it hk => by simpa using h k it hk)
    simp [handleWooCommerceOrderCompleted, List.countP_cons, isProvisionCall, hc]

/-- C9, witness: one matching item, successful provisioning — one response,
one orchestrator invocation. -/
theorem order_completed_gateway_behavior_witness :
    ((handleWooCommerceOrderCompleted (fun _ => vOk) "42" (some [itemJp]))[0]?
        = some (GEffect.respond 200)) ∧
    (handleWooCommerceOrderCompleted (fun _ => vOk) "42" (some [itemJp])).countP
        isRespond = 1 ∧
    (handleWooCommerceOrderCompleted (fun _ => vOk) "42" (some [itemJp])).countP
        isProvisionCall = (esimItemsOf ((some [itemJp]).getD [])).length :=
  ⟨(order_completed_gateway_behavior (fun _ => vOk) "42" (some [itemJp])).1,
   (order_completed_gateway_behavior (fun _ => vOk) "42" (some [itemJp])).2.1,
   (order_completed_gateway_behavior (fun _ => vOk) "42" (some [itemJp])).2.2 (by
     intro k it hk
     have he : esimItemsOf ((some [itemJp]).getD []) = [itemJp] := by decide
     rw [he] at hk
     match k with
     | 0 =>
       obtain rfl : itemJp = it := by simpa using hk
       exact ⟨dOk, rfl⟩
     | m + 1 => simp at hk)⟩

/-- Fields of one eSIM row untouched by the metadata-writing operations
(everything except status, metadata and the update timestamp). -/
def framePreserved (r0 r : Esim) : Prop :=
  r.id = r0.id ∧ r.iccid = r0.iccid ∧ r.user_id = r0.user_id ∧ r.order_id = r0.order_id ∧
  r.product_id = r0.product_id ∧ r.activation_code = r0.activation_code ∧
  r.qr_code = r0.qr_code ∧ r.activated_at = r0.activated_at ∧
  r.deactivated_at = r0.deactivated_at ∧ r.deactivation_reason = r0.deactivation_reason ∧
  r.created_at = r0.created_at

/-- Positional reading of an update-where map: the row at index `k` either
satisfied the condition and was rewritten, or is returned unchanged. -/
theorem row_of_getElem_updateWhere (cond : Esim → Prop) [DecidablePred cond]
    (upd : Esim → Esim) (l : List Esim) (k : Nat) (r0 r : Esim)
    (h0 : l[k]? = some r0)
    (h1 : (l.map fun (x : Esim) => if cond x then upd x else x)[k]? = some r) :
    (cond r0 ∧ r = upd r0) ∨ (¬cond r0 ∧ r = r0) := by
  rw [List.getElem?_map, h0] at h1
  have hv : (if cond r0 then upd r0 else r0) = r := Option.some_inj.mp h1
  by_cases hc : cond r0
  · rw [if_pos hc] at hv
    exact Or.inl ⟨hc, hv.symm⟩
  · rw [if_neg hc] at hv
    exact Or.inr ⟨hc, hv.symm⟩

/-- C10: each metadata write of the suspended/unsuspended webhook handlers
and of the usage-check endpoint replaces the entire stored metadata map
with a map holding only the single key being written (suspension_reason or
last_usage), while all other row fields — and every non-matching row — are
left unchanged. -/
theorem metadata_writes_replace_whole_map :
    (∀ (now : Nat) (w : WebhookData) (db : Db) (s : String) (k : Nat) (r0 r : Esim),
      w.reason = some s →
      db.esims[k]? = some r0 →
      ((handleProfileSuspended now w db).1.esims)[k]? = some r →
      (framePreserved r0 r ∧
        (some r0.iccid = w.iccid →
          r.metadata = [("suspension_reason", MetaVal.str s)] ∧ r.status = "SUSPENDED") ∧
        (¬some r0.iccid = w.iccid → r = r0))) ∧
    (∀ (now : Nat) (w : WebhookData) (db : Db) (k : Nat) (r0 r : Esim),
      db.esims[k]? = some r0 →
      ((handleProfileUnsuspended now w db).1.esims)[k]? = some r →
      (framePreserved r0 r ∧
        (some r0.iccid = w.iccid →
          r.metadata = [("suspension_reason", MetaVal.null)] ∧ r.status = "ACTIVE") ∧
        (¬some r0.iccid = w.iccid → r = r0))) ∧
    (∀ (now : Nat) (user : Requester) (iccid usage : String) (db : Db) (row : Esim)
        (k : Nat) (r0 r : Esim),
      (db.esims.filter fun (x : Esim) => x.iccid = iccid) = [row] →
      ¬(row.user_id ≠ user.id ∧ user.role ≠ "admin") →
      db.esims[k]? = some r0 →
      ((usageRoute now user iccid usage db).1.esims)[k]? = some r →
      ((usageRoute now user iccid usage db).2 = UsageResp.usageOk usage ∧
        framePreserved r0 r ∧ r.status = r0.status ∧
        (r0.iccid = iccid → r.metadata = [("last_usage", MetaVal.usageData usage)]) ∧
        (¬r0.iccid = iccid → r = r0))) := by
  refine ⟨?_, ?_, ?_⟩
  · intro now w db s k r0 r hs h0 h1
    simp only [handleProfileSuspended] at h1
    rcases row_of_getElem_updateWhere (fun x => some x.iccid = w.iccid)
        (fun x =>
          { x with status := "SUSPENDED", metadata := reasonMeta w.reason, updated_at := now })
        db.esims k r0 r h0 h1 with ⟨hc, rfl⟩ | ⟨hc, rfl⟩
    · exact ⟨⟨rfl, rfl, rfl, rfl, rfl, rfl, rfl, rfl, rfl, rfl, rfl⟩,
        fun _ => ⟨by simp [reasonMeta, hs], rfl⟩, fun hn => absurd hc hn⟩
    · exact ⟨⟨rfl, rfl, rfl, rfl, rfl, rfl, rfl, rfl, rfl, rfl, rfl⟩,
        fun hy => absurd hy hc, fun _ => rfl⟩
  · intro now w db k r0 r h0 h1
    simp only [handleProfileUnsuspended] at h1
    rcases row_of_getElem_updateWhere (fun x => some x.iccid = w.iccid)
        (fun x =>
          { x with status := "ACTIVE", metadata := [("suspension_reason", MetaVal.null)],
                   updated_at := now })
        db.esims k r0 r h0 h1 with ⟨hc, rfl⟩ | ⟨hc, rfl⟩
    · exact ⟨⟨rfl, rfl, rfl, rfl, rfl, rfl, rfl, rfl, rfl, rfl, rfl⟩,
        fun _ => ⟨rfl, rfl⟩, fun hn => absurd hc hn⟩
    · exact ⟨⟨rfl, rfl, rfl, rfl, rfl, rfl, rfl, rfl, rfl, rfl, rfl⟩,
        fun hy => absurd hy hc, fun _ => rfl⟩
  · intro now user iccid usage db row k r0 r hfilter hauth h0 h1
    unfold usageRoute at h1 ⊢
    rw [hfilter] at h1 ⊢
    dsimp only at h1 ⊢
    rw [if_neg hauth] at h1 ⊢
    refine ⟨rfl, ?_⟩
    simp only at h1
    rcases row_of_getElem_updateWhere (fun x => x.iccid = iccid)
        (fun x =>
          { x with metadata := [("last_usage", MetaVal.usageData usage)], updated_at := now })
        db.esims k r0 r h0 h1 with ⟨hc, rfl⟩ | ⟨hc, rfl⟩
    · exact ⟨⟨rfl, rfl, rfl, rfl, rfl, rfl, rfl, rfl, rfl, rfl, rfl⟩, rfl,
        fun _ => rfl, fun hn => absurd hc hn⟩
    · exact ⟨⟨rfl, rfl, rfl, rfl, rfl, rfl, rfl, rfl, rfl, rfl, rfl⟩, rfl,
        fun hy => absurd hy hc, fun _ => rfl⟩

/-- A row carrying pre-existing metadata, used to exhibit the wholesale
replacement of the metadata map. -/
def metaRow : Esim :=
  { id := "ESIM-3", order_id := "44", user_id := "U2", product_id := "P2",
    iccid := "Y", status := "ACTIVE",
    metadata := [("provider_order_id", MetaVal.str "ON-9"),
                 ("last_usage", MetaVal.usageData "u0")],
    created_at := 1, updated_at := 1 }

/-- A store holding only `metaRow`. -/
def dbMeta : Db := { esims := [metaRow] }

/-- A `profile.suspended` payload for iccid `Y` with a reason. -/
def wSuspY : WebhookData :=
  { event := "profile.suspended", iccid := some "Y", reason := some "fraud-review" }

/-- An admin caller of the usage endpoint. -/
def adminUser : Requester := { id := "U9", role := "admin" }

/-- The row expected after `wSuspY` is applied to `metaRow` at time 5. -/
def rowSusp : Esim :=
  { metaRow with status := "SUSPENDED",
                 metadata := [("suspension_reason", MetaVal.str "fraud-review")],
                 updated_at := 5 }

/-- The row expected after the usage check writes `raw-usage-1` at time 7. -/
def rowUsage : Esim :=
  { metaRow with metadata := [("last_usage", MetaVal.usageData "raw-usage-1")],
                 updated_at := 7 }

/-- C10, witness: concrete suspension and usage-check writes on a row that
already held two metadata keys — both end with a single-key map and all
frame fields intact. -/
theorem metadata_writes_replace_whole_map_witness :
    wSuspY.reason = some "fraud-review" ∧
    (framePreserved metaRow rowSusp ∧
      (some metaRow.iccid = wSuspY.iccid →
        rowSusp.metadata = [("suspension_reason", MetaVal.str "fraud-review")] ∧
        rowSusp.status = "SUSPENDED") ∧
      (¬some metaRow.iccid = wSuspY.iccid → rowSusp = metaRow)) ∧
    ((usageRoute 7 adminUser "Y" "raw-usage-1" dbMeta).2 = UsageResp.usageOk "raw-usage-1" ∧
      framePreserved metaRow rowUsage ∧ rowUsage.status = metaRow.status ∧
      (metaRow.iccid = "Y" → rowUsage.metadata = [("last_usage", MetaVal.usageData "raw-usage-1")]) ∧
      (¬metaRow.iccid = "Y" → rowUsage = metaRow)) :=
  ⟨rfl,
   metadata_writes_replace_whole_map.1 5 wSuspY dbMeta "fraud-review" 0 metaRow rowSusp
     rfl (by decide) (by decide),
   metadata_writes_replace_whole_map.2.2 7 adminUser "Y" "raw-usage-1" dbMeta metaRow 0
     metaRow rowUsage (by decide) (by decide) (by decide) (by decide)⟩
